import Mathlib

/-!
Verification of the vendora-b2b e-commerce AI service core.

Shallow embedding of `src/ai-service`:
  - `services/chat_service.py`    (intent router, context aggregator, response generator)
  - `services/recommendation_service.py` (preference vector engine)
  - `services/qdrant_service.py`  (vector index client wrapper)
  - `services/embedding_service.py`, `config/settings.py`, `api/recommend.py`

Modelling conventions:
  - Python floats are modelled as exact rationals (`ℚ`) in the store and
    control-flow model, and as reals (`ℝ`) in the numeric update model where
    the L2 normalization (square root) is analysed exactly.
  - External collaborators (the similarity metric of the vector index, the
    machine square root used by numpy, the embedding model) are fields of a
    `Collab` record: the claims hold for every instantiation.
  - Fallible Python code returns `Except PyErr`; an exception swallowed by a
    local `try/except` is folded into the translated function.
  - Python dicts are association lists preserving insertion order;
    `d[k] = v` replaces in place or appends.
-/

namespace Vendora

/-- Python exception classes that the translated code can raise. -/
inductive PyErr where
  | typeError
  | valueError
  | serviceError
deriving DecidableEq, Repr

/-- Scalar payload value of a Qdrant filter / payload entry. -/
inductive Val where
  | str : String → Val
  | int : Int → Val
deriving DecidableEq, Repr

/-- Python dict with string keys, as an insertion-ordered association list. -/
abbrev Dict := List (String × Val)

/-- Membership test `k in d` on a Python dict. -/
def dictHas (d : Dict) (k : String) : Bool := d.any (fun p => p.1 == k)

/-- Lookup `d[k]` / `d.get(k)` on a Python dict. -/
def dictGet (d : Dict) (k : String) : Option Val :=
  (d.find? (fun p => p.1 == k)).map (fun p => p.2)

/-- Assignment `d[k] = v`: replaces the value in place when the key exists
(keeping its position, as Python dicts do), otherwise appends. -/
def dictSet (d : Dict) (k : String) (v : Val) : Dict :=
  if d.any (fun p => p.1 == k) then
    d.map (fun p => if p.1 == k then (k, v) else p)
  else d ++ [(k, v)]

/-- Embedding vector: ordered sequence of numbers (floats as exact rationals). -/
abbrev Vec := List ℚ

/-- Sum of squares of a vector (the square of the L2 norm). -/
def sumSq (v : Vec) : ℚ := (v.map (fun x => x * x)).sum

/-! ## Settings (`config/settings.py`, defaults) -/

def embedding_dimension : Nat := 384

def user_vector_decay : ℚ := 0.95

def view_weight : ℚ := 1.0

def add_to_cart_weight : ℚ := 2.0

def order_weight : ℚ := 5.0

def chat_context_limit : Nat := 10

/-- Interaction weights table of `RecommendationService.__init__`;
`self.weights.get(action, 1.0)`. -/
def weights_get (action : String) : ℚ :=
  if action = "VIEW" then view_weight
  else if action = "ADD_TO_CART" then add_to_cart_weight
  else if action = "ORDER" then order_weight
  else 1.0

/-! ## Store and collaborators -/

/-- One point of the product catalog collection. Ingest
(`api/ingest.py`) stores the point under id `product_id` with payload keys
sku, product_id, name, description, supplier_id, category, where the payload
product_id equals the point id. -/
structure ProductPoint where
  product_id : Int
  vector : Vec
  sku : String
  name : String
  description : String
  supplier_id : Int
  category : String
deriving DecidableEq, Repr

/-- One point of the knowledge base collection (`api/ingest.py` document
ingest: uuid point id; payload doc_type, title, region, source, text). -/
structure KnowledgePoint where
  id : String
  vector : Vec
  doc_type : String
  title : String
  region : String
  source : String
  text : String
deriving DecidableEq, Repr

/-- State of the vector index, together with failure switches for each
fallible collaborator call (a `true` switch makes the corresponding Qdrant
client call raise, modelling an unreachable index). -/
structure Store where
  products : List ProductPoint
  knowledge : List KnowledgePoint
  users : List (Int × Vec)
  searchProductsFails : Bool := false
  searchKnowledgeFails : Bool := false
  retrieveProductFails : Bool := false
  retrieveUserFails : Bool := false
  upsertUserFails : Bool := false
deriving DecidableEq, Repr

/-- Modelled from the spec: the external collaborator primitives consumed by
the core. `score` is the similarity metric of the Vector Index Client
(cosine in the deployment; every claim below holds for an arbitrary metric),
`sqrtF` is the machine square root used by `np.linalg.norm`, and `embedF` is
the deterministic text-to-vector function of the Embedding Gateway. -/
structure Collab where
  score : Vec → Vec → ℚ
  sqrtF : ℚ → ℚ
  embedF : String → Vec

/-- Search hit over the product catalog: `{"id": hit.id, "score": hit.score,
**hit.payload}` flattened into a record (`qdrant_service.search_products`). -/
structure ProductHit where
  id : Int
  score : ℚ
  product_id : Int
  sku : String
  name : String
  description : String
  supplier_id : Int
  category : String
deriving DecidableEq, Repr

/-- Search hit over the knowledge base, payload flattened
(`qdrant_service.search_knowledge_base`). -/
structure KnowledgeHit where
  id : String
  score : ℚ
  doc_type : String
  title : String
  region : String
  source : String
  text : String
deriving DecidableEq, Repr

def toProductHit (C : Collab) (q : Vec) (p : ProductPoint) : ProductHit :=
  { id := p.product_id, score := C.score q p.vector, product_id := p.product_id,
    sku := p.sku, name := p.name, description := p.description,
    supplier_id := p.supplier_id, category := p.category }

def toKnowledgeHit (C : Collab) (q : Vec) (p : KnowledgePoint) : KnowledgeHit :=
  { id := p.id, score := C.score q p.vector, doc_type := p.doc_type,
    title := p.title, region := p.region, source := p.source, text := p.text }

/-- Equality-filter match of a product point against Qdrant `must` conditions
built from a filter dict (`FieldCondition(key, MatchValue(value))`). A key
that is not a payload field of the collection matches no point. -/
def productMatches (f : Dict) (p : ProductPoint) : Bool :=
  f.all (fun kv =>
    match kv.1, kv.2 with
    | "sku", Val.str s => p.sku == s
    | "product_id", Val.int i => p.product_id == i
    | "category", Val.str c => p.category == c
    | "supplier_id", Val.int i => p.supplier_id == i
    | _, _ => false)

/-- Modelled from the spec: the raw top-K similarity search of the Vector
Index Client over the product catalog: filter by the equality conditions,
rank by descending similarity score, return the first `limit` hits. -/
def productSearchImpl (C : Collab) (st : Store) (q : Vec) (limit : Nat)
    (filters : Option Dict) : List ProductHit :=
  let cand := match filters with
    | some f => st.products.filter (productMatches f)
    | none => st.products
  let ranked := cand.insertionSort
    (fun a b => C.score q b.vector ≤ C.score q a.vector)
  (ranked.take limit).map (toProductHit C q)

/-- Equality-filter match of a knowledge point. -/
def knowledgeMatches (docType region : Option String) (p : KnowledgePoint) : Bool :=
  (match docType with | some d => p.doc_type == d | none => true) &&
  (match region with | some r => p.region == r | none => true)

/-- Modelled from the spec: raw top-K similarity search over the knowledge
base collection. -/
def knowledgeSearchImpl (C : Collab) (st : Store) (q : Vec) (limit : Nat)
    (docType region : Option String) : List KnowledgeHit :=
  let cand := st.knowledge.filter (knowledgeMatches docType region)
  let ranked := cand.insertionSort
    (fun a b => C.score q b.vector ≤ C.score q a.vector)
  (ranked.take limit).map (toKnowledgeHit C q)

/-! ## Qdrant service (`services/qdrant_service.py`) -/

/-- Translation of `QdrantService.search_products` (lines 145-180): any client
exception is logged and re-raised. -/
def qdrant_search_products (C : Collab) (st : Store) (q : Vec) (limit : Nat)
    (filters : Option Dict) : Except PyErr (List ProductHit) :=
  if st.searchProductsFails then Except.error PyErr.serviceError
  else Except.ok (productSearchImpl C st q limit filters)

/-- Translation of `QdrantService.get_product_vector` (lines 182-197): a
client exception is caught and turned into `None`, as is an unknown id. -/
def qdrant_get_product_vector (st : Store) (pid : Int) : Option Vec :=
  if st.retrieveProductFails then none
  else (st.products.find? (fun p => p.product_id == pid)).map (fun p => p.vector)

/-- Parameter names of `QdrantService.search_knowledge_base` (line 226-232):
`query_vector`, `limit`, `doc_type`, `region` (plus `self`). -/
def search_knowledge_base_parameters : List String :=
  ["query_vector", "limit", "doc_type", "region"]

/-- Translation of `QdrantService.search_knowledge_base` (lines 226-265):
builds `must` conditions from the optional doc_type and region arguments;
client exceptions are re-raised. -/
def qdrant_search_knowledge_base (C : Collab) (st : Store) (q : Vec)
    (limit : Nat) (docType region : Option String) :
    Except PyErr (List KnowledgeHit) :=
  if st.searchKnowledgeFails then Except.error PyErr.serviceError
  else Except.ok (knowledgeSearchImpl C st q limit docType region)

/-- Translation of `QdrantService.get_user_vector` (lines 269-284): a client
exception is caught and turned into `None`, as is an unknown id. -/
def qdrant_get_user_vector (st : Store) (uid : Int) : Option Vec :=
  if st.retrieveUserFails then none
  else (st.users.find? (fun p => p.1 == uid)).map (fun p => p.2)

/-- Replace-or-append on the user vector collection (point upsert). -/
def usersUpsert (users : List (Int × Vec)) (uid : Int) (v : Vec) :
    List (Int × Vec) :=
  if users.any (fun p => p.1 == uid) then
    users.map (fun p => if p.1 == uid then (uid, v) else p)
  else users ++ [(uid, v)]

/-- Translation of `QdrantService.upsert_user_vector` (lines 286-312): client
exceptions are re-raised. -/
def qdrant_upsert_user_vector (st : Store) (uid : Int) (v : Vec) :
    Except PyErr Store :=
  if st.upsertUserFails then Except.error PyErr.serviceError
  else Except.ok { st with users := usersUpsert st.users uid v }

/-! ## Embedding service (`services/embedding_service.py`) -/

/-- Leading-whitespace removal on a character list. -/
def dropLeadingWs : List Char → List Char
  | [] => []
  | c :: cs => if c.isWhitespace then dropLeadingWs cs else c :: cs

/-- Python `s.strip()`: whitespace removed from both ends. -/
def pyStrip (s : String) : String :=
  ⟨dropLeadingWs (dropLeadingWs s.data.reverse).reverse⟩

/-- Translation of `EmbeddingService.embed_text` (lines 43-65): strips the
text, raises `ValueError` on empty input, otherwise returns the model
embedding (the model itself is the `embedF` collaborator). -/
def embed_text (C : Collab) (text : String) : Except PyErr Vec :=
  if pyStrip text = "" then Except.error PyErr.valueError
  else Except.ok (C.embedF (pyStrip text))

/-! ## Chat service (`services/chat_service.py`) -/

/-- Structured output of the intent router (`QueryIntent` dataclass,
chat_service.py lines 27-34). -/
structure QueryIntent where
  intents : List String
  product_filters : Option Dict := none
  knowledge_filters : Option Dict := none
  requires_realtime_data : Bool := false
  confidence : ℚ := 1.0
deriving DecidableEq, Repr

/-- Python substring containment `sub in s` on character lists. -/
def charsContain (sub : List Char) : List Char → Bool
  | [] => sub.isEmpty
  | c :: cs => sub.isPrefixOf (c :: cs) || charsContain sub cs

/-- Python `sub in s` on strings. -/
def pyContains (s sub : String) : Bool := charsContain sub.toList s.toList

/-- Python `s.lower()`, as a character-wise lowering of the underlying
character list. -/
def pyLower (s : String) : String := ⟨s.data.map Char.toLower⟩

def product_keywords : List String :=
  ["product", "buy", "purchase", "price", "find", "search", "looking for"]

def tax_keywords : List String :=
  ["tax", "duty", "import", "export", "regulation"]

def contract_keywords : List String :=
  ["contract", "agreement", "legal", "template"]

def supplier_keywords : List String :=
  ["supplier", "vendor", "seller", "who sells"]

def platform_keywords : List String :=
  ["how to", "how do i", "help me", "guide"]

/-- Default confidence reported by the model-backed classification path when
the model response omits the field (`result.get("confidence", 0.8)`,
chat_service.py line 118). -/
def llm_default_confidence : ℚ := 0.8

/-- Translation of `ChatService._fallback_classification` (lines 131-151):
keyword scan of the lower-cased query, one intent per matching keyword set,
defaulting to `general`, with fixed confidence 0.6. -/
def fallback_classification (query : String) : QueryIntent :=
  let ql := pyLower query
  let hits := fun (kws : List String) => kws.any (fun kw => pyContains ql kw)
  let intents :=
    (if hits product_keywords then ["product_search"] else []) ++
    (if hits tax_keywords then ["tax_question"] else []) ++
    (if hits contract_keywords then ["contract_help"] else []) ++
    (if hits supplier_keywords then ["supplier_info"] else []) ++
    (if hits platform_keywords then ["platform_help"] else [])
  let intents := if intents = [] then ["general"] else intents
  { intents := intents, confidence := 0.6 }

/-- Filter translation of `ChatService._search_products` (lines 209-215,
220): copy the category and supplier_id keys into a fresh Qdrant filter
dict, passing `None` when the result is empty. -/
def chatProductFilters (filters : Option Dict) : Option Dict :=
  let qf0 : Dict := []
  let qf1 := match filters with
    | some f => match dictGet f "category" with
      | some v => dictSet qf0 "category" v
      | none => qf0
    | none => qf0
  let qf2 := match filters with
    | some f => match dictGet f "supplier_id" with
      | some v => dictSet qf1 "supplier_id" v
      | none => qf1
    | none => qf1
  if qf2 = [] then none else some qf2

/-- Translation of `ChatService._search_products` (lines 202-225): translate
the intent filters to Qdrant filters (category and supplier_id keys only),
search the catalog with limit 5, and catch every exception into `[]`. -/
def chat_search_products (C : Collab) (st : Store) (qe : Vec)
    (filters : Option Dict) : List ProductHit :=
  match qdrant_search_products C st qe 5 (chatProductFilters filters) with
  | Except.ok r => r
  | Except.error _ => []

/-- The call inside `ChatService._search_knowledge` (lines 241-245) invokes
`search_knowledge_base(query_vector=…, limit=3, filters=…)`. The callee has
no parameter named `filters` (its parameters are
`search_knowledge_base_parameters`), so Python raises `TypeError` at the call
before the search body runs. -/
def chat_search_knowledge_call (C : Collab) (st : Store) (qe : Vec)
    (_qdrantFilters : Option Dict) : Except PyErr (List KnowledgeHit) :=
  if "filters" ∈ search_knowledge_base_parameters then
    qdrant_search_knowledge_base C st qe 3 none none
  else Except.error PyErr.typeError

/-- Translation of `ChatService._search_knowledge` (lines 227-249): translate
the filters (doc_type and region keys only), call the knowledge search, and
catch every exception into `[]`. -/
def chat_search_knowledge (C : Collab) (st : Store) (qe : Vec)
    (filters : Option Dict) : List KnowledgeHit :=
  let qf0 : Dict := []
  let qf1 := match filters with
    | some f => match dictGet f "doc_type" with
      | some v => dictSet qf0 "doc_type" v
      | none => qf0
    | none => qf0
  let qf2 := match filters with
    | some f => match dictGet f "region" with
      | some v => dictSet qf1 "region" v
      | none => qf1
    | none => qf1
  match chat_search_knowledge_call C st qe (if qf2 = [] then none else some qf2) with
  | Except.ok r => r
  | Except.error _ => []

/-- Retrieval context returned by `retrieve_context`: one optional entry per
source name; `none` means the task was not built (key absent from the Python
dict), `some l` means the task was built and produced `l` (an exception
degrades to `some []`). The five keys are fixed, so the insertion-ordered
dict is modelled as a record. -/
structure RContext where
  products : Option (List ProductHit) := none
  tax_docs : Option (List KnowledgeHit) := none
  contract_docs : Option (List KnowledgeHit) := none
  suppliers : Option (List ProductHit) := none
  guides : Option (List KnowledgeHit) := none
deriving DecidableEq, Repr

/-- The filters argument captured by a knowledge retrieval task: either a
reference to the shared `intent.knowledge_filters` object, or a private
fresh dict. -/
inductive FilterRef where
  | shared : FilterRef
  | fresh : Dict → FilterRef
deriving DecidableEq, Repr

/-- One branch of the task-building phase of `retrieve_context` for a
knowledge source: `filters = intent.knowledge_filters or {}` (which aliases
the intent object exactly when it is a non-empty dict, since `None` and `{}`
are falsy) followed by `filters["doc_type"] = docType`. Returns the task
filter reference together with the new state of the shared object. -/
def buildKnowledgeTask (kf : Option Dict) (docType : String) :
    FilterRef × Option Dict :=
  match kf with
  | some d =>
    if d = [] then (FilterRef.fresh (dictSet [] "doc_type" (Val.str docType)), kf)
    else (FilterRef.shared, some (dictSet d "doc_type" (Val.str docType)))
  | none => (FilterRef.fresh (dictSet [] "doc_type" (Val.str docType)), kf)

/-- Resolve a task filter reference against the final state of the shared
object (coroutine bodies read the dict only when awaited, after every branch
of the building phase has run). -/
def resolveFilterRef (final : Option Dict) : FilterRef → Option Dict
  | FilterRef.shared => final
  | FilterRef.fresh d => some d

/-- Translation of `ChatService.retrieve_context` (lines 153-200). Embeds the
query once, builds one task per intent label, executes the tasks (their
internal try/except already degrades a failure to `[]`, so the
`return_exceptions=True` branch of the gather is never taken), and returns
the per-source context. The second component is the state of the `intent`
argument after the call: building the knowledge tasks mutates the
`knowledge_filters` dict in place when it is non-empty. -/
def retrieve_context (C : Collab) (st : Store) (query : String)
    (intent : QueryIntent) : Except PyErr RContext × QueryIntent :=
  match embed_text C query with
  | Except.error e => (Except.error e, intent)
  | Except.ok qe =>
    let kf0 := intent.knowledge_filters
    let taxStep := if "tax_question" ∈ intent.intents then
        let r := buildKnowledgeTask kf0 "tax"
        (some r.1, r.2)
      else ((none : Option FilterRef), kf0)
    let contractStep := if "contract_help" ∈ intent.intents then
        let r := buildKnowledgeTask taxStep.2 "contract"
        (some r.1, r.2)
      else ((none : Option FilterRef), taxStep.2)
    let kfFinal := contractStep.2
    let ctx : RContext :=
      { products := if "product_search" ∈ intent.intents then
          some (chat_search_products C st qe intent.product_filters) else none
        tax_docs := taxStep.1.map (fun fr =>
          chat_search_knowledge C st qe (resolveFilterRef kfFinal fr))
        contract_docs := contractStep.1.map (fun fr =>
          chat_search_knowledge C st qe (resolveFilterRef kfFinal fr))
        suppliers := if "supplier_info" ∈ intent.intents then
          some (chat_search_products C st qe intent.product_filters) else none
        guides := if "platform_help" ∈ intent.intents then
          some (chat_search_knowledge C st qe
            (some [("doc_type", Val.str "guide")])) else none }
    (Except.ok ctx, { intent with knowledge_filters := kfFinal })

/-! ## Response generator fallback (`chat_service.py` lines 369-380, 461-494) -/

/-- Truthiness of one entry of the context dict: present and non-empty. -/
def truthyEntry {α : Type} (entry : Option (List α)) : Bool :=
  match entry with
  | some l => !l.isEmpty
  | none => false

/-- Truthiness of `any(context.values())`: some built source returned a
non-empty hit list. -/
def anyContextValues (ctx : RContext) : Bool :=
  truthyEntry ctx.products || truthyEntry ctx.tax_docs ||
  truthyEntry ctx.contract_docs || truthyEntry ctx.suppliers ||
  truthyEntry ctx.guides

def no_info_message : String :=
  "I apologize, but I couldn't find relevant information for your query. Please try rephrasing your question or contact our support team for assistance."

def could_not_format_message : String :=
  "I found some information but couldn't format it properly. Please contact support."

/-- Products section of the fallback composer. -/
def productsSection (l : List ProductHit) : String :=
  "**Products Found:**\n" ++ String.intercalate "\n"
    (l.map (fun p => "• " ++ p.name ++ " (SKU: " ++ p.sku ++ ")"))

/-- Document section of the fallback composer with the given header (the
typed knowledge hits always carry a title, so the `.get` defaults of the
source are never taken). -/
def docsSection (header : String) (l : List KnowledgeHit) : String :=
  header ++ String.intercalate "\n"
    (l.map (fun d => "• " ++ d.title ++ ": " ++ d.text.take 200 ++ "..."))

/-- One conditional append of the fallback composer: the rendered section as
a singleton when the entry is present and non-empty, else nothing. -/
def sectionList {α : Type} (entry : Option (List α))
    (render : List α → String) : List String :=
  match entry with
  | some (p :: ps) => [render (p :: ps)]
  | _ => []

/-- The `response_parts` list of `_generate_fallback_response` (lines
472-492): one section per non-empty rendered source, in source order. The
`suppliers` entry of the context is never rendered. -/
def fallbackSections (ctx : RContext) : List String :=
  sectionList ctx.products productsSection ++
  sectionList ctx.tax_docs (docsSection "**Tax Information:**\n") ++
  sectionList ctx.contract_docs (docsSection "**Contract Information:**\n") ++
  sectionList ctx.guides (docsSection "**Guides:**\n")

/-- Translation of `ChatService._generate_fallback_response` (lines 461-494):
the no-information message when every built source is empty, otherwise the
non-empty rendered sections joined by blank lines, or a fixed apology when
none of the four rendered sources is non-empty. The query and intent
parameters are accepted and unused, as in the source. -/
def generate_fallback_response (_query : String) (ctx : RContext)
    (_intent : QueryIntent) : String :=
  if anyContextValues ctx = false then no_info_message
  else
    let parts := fallbackSections ctx
    if parts = [] then could_not_format_message
    else String.intercalate "\n\n" parts

/-- Outcome of the generation backend for one call: `none` when no backend is
configured (`self.llm_available` false), `some (Except.error e)` when the
backend raises, `some (Except.ok t)` when it returns text `t`. -/
abbrev LlmOutcome := Option (Except PyErr String)

/-- Translation of `ChatService._generate_llm_response` (lines 369-430): the
fallback composer runs when no backend is configured or the generation call
raises; otherwise the generated text is returned. -/
def generate_llm_response (llm : LlmOutcome) (query : String) (ctx : RContext)
    (intent : QueryIntent) : String :=
  match llm with
  | none => generate_fallback_response query ctx intent
  | some (Except.error _) => generate_fallback_response query ctx intent
  | some (Except.ok t) => t

/-! ## Recommendation service (`services/recommendation_service.py`) -/

/-- Python truthiness of an optional integer (`if product_id:`): false for
`None` and for `0`. -/
def pyTruthyInt : Option Int → Bool
  | some n => n != 0
  | none => false

/-- Python truthiness of an optional string (`... and sku:`): false for
`None` and for the empty string. -/
def pyTruthyStr : Option String → Bool
  | some s => s != ""
  | none => false

/-- Step 1 of `RecommendationService.track_interaction` (lines 50-70): the
item vector resolution. Try the id lookup when `product_id` is truthy; when
that leaves no vector and a truthy SKU is present, search the catalog by SKU
with a dummy zero vector (an exception of that search propagates), then
fetch the vector of the first hit. `Except.ok none` is the resolution-failed
outcome that the caller drops with a warning. -/
def resolve_item_vector (C : Collab) (st : Store) (product_id : Option Int)
    (sku : Option String) : Except PyErr (Option Vec) :=
  let pv0 : Option Vec := match product_id with
    | some pid => if pid != 0 then qdrant_get_product_vector st pid else none
    | none => none
  match pv0 with
  | some v => Except.ok (some v)
  | none =>
    match sku with
    | some s =>
      if s != "" then
        match qdrant_search_products C st (List.replicate embedding_dimension 0)
            1 (some [("sku", Val.str s)]) with
        | Except.error e => Except.error e
        | Except.ok [] => Except.ok none
        | Except.ok (r :: _) => Except.ok (qdrant_get_product_vector st r.id)
      else Except.ok none
    | none => Except.ok none

/-- The decay-weighted update of an existing user vector
(`track_interaction` lines 79-93, rational model): blend with
`V_old * decay + V_item * (1 - decay) * weight * 0.05`, then divide by the
machine norm `sqrtF (sumSq blended)` when it is positive. -/
def updateUserVectorQ (C : Collab) (uold pvec : Vec) (action : String) : Vec :=
  let weight := weights_get action
  let update_factor := (1 - user_vector_decay) * weight * 0.05
  let blended := List.zipWith
    (fun a b => a * user_vector_decay + b * update_factor) uold pvec
  let norm := C.sqrtF (sumSq blended)
  if 0 < norm then blended.map (fun x => x / norm) else blended

/-- Translation of `RecommendationService.track_interaction` (lines 37-102).
The whole body sits in a try/except that logs and re-raises, so a raising
collaborator call surfaces as `Except.error`; a failed item resolution
returns normally with the store untouched; otherwise the new user vector
(the item vector on a first interaction, the decay-weighted update
otherwise) is upserted. The `variant_id` parameter is accepted and unused,
as in the source. -/
def track_interaction (C : Collab) (st : Store) (user_id : Int)
    (product_id : Option Int) (_variant_id : Option Int) (sku : Option String)
    (action : String) : Except PyErr Store :=
  match resolve_item_vector C st product_id sku with
  | Except.error e => Except.error e
  | Except.ok none => Except.ok st
  | Except.ok (some pvec) =>
    let unew := match qdrant_get_user_vector st user_id with
      | none => pvec
      | some uold => updateUserVectorQ C uold pvec action
    qdrant_upsert_user_vector st user_id unew

/-- Request validation of the tracking endpoint (`api/recommend.py` lines
83-88): `any([request.product_id, request.variant_id, request.sku])` over
Python truthiness. -/
def track_request_valid (product_id variant_id : Option Int)
    (sku : Option String) : Bool :=
  pyTruthyInt product_id || pyTruthyInt variant_id || pyTruthyStr sku

/-- Recommendation record returned by the ranking operations:
`{"product_id", "sku", "name", "score"}`. -/
structure Rec where
  product_id : Int
  sku : String
  name : String
  score : ℚ
deriving DecidableEq, Repr

def hitToRec (r : ProductHit) : Rec :=
  { product_id := r.product_id, sku := r.sku, name := r.name, score := r.score }

/-- Translation of `RecommendationService._get_default_recommendations`
(lines 214-246): search with a neutral zero vector of the configured
dimension, report the fixed score 0.5, and catch every exception into `[]`. -/
def default_recommendations (C : Collab) (st : Store) (limit : Nat) :
    List Rec :=
  match qdrant_search_products C st (List.replicate embedding_dimension 0)
      limit none with
  | Except.error _ => []
  | Except.ok rs => rs.map (fun r => { hitToRec r with score := 0.5 })

/-- Translation of `RecommendationService.get_user_recommendations` (lines
104-139): default recommendations on a missing user vector (cold start),
otherwise a similarity search with the user vector; search exceptions are
re-raised. -/
def get_user_recommendations (C : Collab) (st : Store) (uid : Int)
    (limit : Nat) : Except PyErr (List Rec) :=
  match qdrant_get_user_vector st uid with
  | none => Except.ok (default_recommendations C st limit)
  | some uv =>
    match qdrant_search_products C st uv limit none with
    | Except.error e => Except.error e
    | Except.ok rs => Except.ok (rs.map hitToRec)

/-- Translation of `RecommendationService.get_similar_products` (lines
141-179): empty result on a missing item vector, otherwise search with
`limit + 1` neighbors, drop the query item, cap at `limit`. -/
def get_similar_products (C : Collab) (st : Store) (pid : Int) (limit : Nat) :
    Except PyErr (List Rec) :=
  match qdrant_get_product_vector st pid with
  | none => Except.ok []
  | some pv =>
    match qdrant_search_products C st pv (limit + 1) none with
    | Except.error e => Except.error e
    | Except.ok rs =>
      Except.ok (((rs.filter (fun r => r.product_id != pid)).map hitToRec).take limit)

/-- The merge loop of `get_homepage_recommendations` (lines 202-206): append
each default recommendation whose product id has not been seen, threading
the seen-id set. -/
def mergeDedup (acc : List Rec) (seen : List Int) : List Rec → List Rec
  | [] => acc
  | r :: rs =>
    if r.product_id ∈ seen then mergeDedup acc seen rs
    else mergeDedup (acc ++ [r]) (r.product_id :: seen) rs

/-- Translation of `RecommendationService.get_homepage_recommendations`
(lines 181-212): user-based recommendations first; if fewer than `limit`,
pad with default recommendations deduplicated by product id, capping the
result at `limit`. -/
def get_homepage_recommendations (C : Collab) (st : Store) (uid : Int)
    (limit : Nat) : Except PyErr (List Rec) :=
  match get_user_recommendations C st uid limit with
  | Except.error e => Except.error e
  | Except.ok ur =>
    if limit ≤ ur.length then Except.ok (ur.take limit)
    else
      let needed := limit - ur.length
      let ds := default_recommendations C st needed
      Except.ok ((mergeDedup ur (ur.map (fun r => r.product_id)) ds).take limit)

/-! ## Exact numeric model of the preference update

The control-flow model above keeps the machine square root abstract. The
numeric content of the update (`track_interaction` lines 72-93) is analysed
here over exact reals: floats are modelled as reals and `np.linalg.norm` as
the exact L2 norm. -/

/-- Sum of squares over the reals. -/
def sumSqR (v : List ℝ) : ℝ := (v.map (fun x => x * x)).sum

/-- Exact L2 norm (`np.linalg.norm`). -/
noncomputable def l2norm (v : List ℝ) : ℝ := Real.sqrt (sumSqR v)

/-- Settings constants over the reals. -/
noncomputable def decayR : ℝ := (user_vector_decay : ℝ)

noncomputable def weightsGetR (action : String) : ℝ := (weights_get action : ℝ)

/-- The blended vector of the update branch (line 86):
`user_vector * decay + product_vector * (1 - decay) * weight * 0.05`. -/
noncomputable def combineR (uold vitem : List ℝ) (action : String) : List ℝ :=
  let weight := weightsGetR action
  let update_factor := (1 - decayR) * weight * 0.05
  List.zipWith (fun a b => a * decayR + b * update_factor) uold vitem

/-- The update branch of `track_interaction` (lines 79-93) over exact reals:
blend, then renormalize when the norm is positive. -/
noncomputable def updateUserVectorR (uold vitem : List ℝ) (action : String) :
    List ℝ :=
  let blended := combineR uold vitem action
  let norm := l2norm blended
  if 0 < norm then blended.map (fun x => x / norm) else blended

/-- The first-interaction branch of `track_interaction` (lines 75-77): the
user vector is initialized to the item vector, with no normalization. -/
def firstUserVectorR (vitem : List ℝ) : List ℝ := vitem

theorem sumSqR_nonneg (v : List ℝ) : 0 ≤ sumSqR v := by
  induction v with
  | nil => simp [sumSqR]
  | cons a v ih =>
    simp only [sumSqR, List.map_cons, List.sum_cons] at *
    exact add_nonneg (mul_self_nonneg a) ih

theorem sumSqR_map_div (v : List ℝ) (n : ℝ) :
    sumSqR (v.map (fun x => x / n)) = sumSqR v / n ^ 2 := by
  induction v with
  | nil => simp [sumSqR]
  | cons a v ih =>
    simp only [sumSqR, List.map_cons, List.sum_cons] at *
    rw [ih, div_mul_div_comm, (pow_two n).symm, div_add_div_same]

theorem l2norm_nonneg (v : List ℝ) : 0 ≤ l2norm v := Real.sqrt_nonneg _

/-- Normalizing a vector of positive norm yields a unit vector. -/
theorem l2norm_normalize (v : List ℝ) (h : 0 < l2norm v) :
    l2norm (v.map (fun x => x / l2norm v)) = 1 := by
  have hS : 0 < sumSqR v := by
    by_contra hle
    push_neg at hle
    have h0 : sumSqR v = 0 := le_antisymm hle (sumSqR_nonneg v)
    rw [l2norm, h0, Real.sqrt_zero] at h
    exact lt_irrefl 0 h
  have hsq : l2norm v ^ 2 = sumSqR v := Real.sq_sqrt (le_of_lt hS)
  rw [l2norm, sumSqR_map_div, hsq, div_self (ne_of_gt hS), Real.sqrt_one]

/-! ## Concrete objects used by witnesses and counterexamples -/

/-- A concrete collaborator instantiation: constant similarity score, zero
machine square root, empty embedding. -/
def collab0 : Collab :=
  { score := fun _ _ => 0, sqrtF := fun _ => 0, embedF := fun _ => [] }

/-- A store with no products and one tracked user, whose vector index raises
on product searches. -/
def storeSkuFail : Store :=
  { products := [], knowledge := [], users := [(7, [1, 0])],
    searchProductsFails := true }

/-- A healthy store with no products and one tracked user. -/
def storeNoItem : Store :=
  { products := [], knowledge := [], users := [(7, [1, 0])] }

def prodA : ProductPoint :=
  { product_id := 1, vector := [1], sku := "A", name := "a",
    description := "da", supplier_id := 10, category := "c" }

def prodB : ProductPoint :=
  { product_id := 2, vector := [1], sku := "B", name := "b",
    description := "db", supplier_id := 10, category := "c" }

/-- A healthy store holding two products. -/
def storeTwo : Store := { products := [prodA, prodB], knowledge := [], users := [] }

/-! ## Claim theorems -/

/-- C7: for every query string, keyword classification yields an intent set
containing `product_search` and `tax_question` whenever the lower-cased
query contains a product keyword and a tax keyword; yields exactly
`["general"]` when no keyword set matches; and always reports the fixed
confidence 0.6, strictly below the model-backed default confidence 0.8. -/
theorem c7_fallback_classification (query : String) :
    (product_keywords.any (fun kw => pyContains (pyLower query) kw) = true →
     tax_keywords.any (fun kw => pyContains (pyLower query) kw) = true →
     "product_search" ∈ (fallback_classification query).intents ∧
     "tax_question" ∈ (fallback_classification query).intents) ∧
    (product_keywords.any (fun kw => pyContains (pyLower query) kw) = false →
     tax_keywords.any (fun kw => pyContains (pyLower query) kw) = false →
     contract_keywords.any (fun kw => pyContains (pyLower query) kw) = false →
     supplier_keywords.any (fun kw => pyContains (pyLower query) kw) = false →
     platform_keywords.any (fun kw => pyContains (pyLower query) kw) = false →
     (fallback_classification query).intents = ["general"]) ∧
    (fallback_classification query).confidence = 0.6 ∧
    (fallback_classification query).confidence < llm_default_confidence := by
  refine ⟨?_, ?_, rfl, ?_⟩
  · intro hp ht
    simp only [fallback_classification, hp, ht, if_true]
    constructor
    · by_cases h3 : contract_keywords.any (fun kw => pyContains (pyLower query) kw) <;>
      by_cases h4 : supplier_keywords.any (fun kw => pyContains (pyLower query) kw) <;>
      by_cases h5 : platform_keywords.any (fun kw => pyContains (pyLower query) kw) <;>
      simp [h3, h4, h5]
    · by_cases h3 : contract_keywords.any (fun kw => pyContains (pyLower query) kw) <;>
      by_cases h4 : supplier_keywords.any (fun kw => pyContains (pyLower query) kw) <;>
      by_cases h5 : platform_keywords.any (fun kw => pyContains (pyLower query) kw) <;>
      simp [h3, h4, h5]
  · intro h1 h2 h3 h4 h5
    simp [fallback_classification, h1, h2, h3, h4, h5]
  · show (0.6 : ℚ) < llm_default_confidence
    rw [llm_default_confidence]
    norm_num

/-- C7 witness: the query "find import tax" carries both intents, the query
"zzz" classifies as general. -/
theorem c7_witness :
    ("product_search" ∈ (fallback_classification "find import tax").intents ∧
     "tax_question" ∈ (fallback_classification "find import tax").intents) ∧
    (fallback_classification "zzz").intents = ["general"] :=
  ⟨(c7_fallback_classification "find import tax").1 (by decide) (by decide),
   (c7_fallback_classification "zzz").2.1 (by decide) (by decide) (by decide)
     (by decide) (by decide)⟩

/-- C2: over exact reals, the first tracked event stores exactly the item
vector; a subsequent event stores the decay blend
`V_old * decay + V_item * (1 - decay) * weight * 0.05`, divided by its L2
norm exactly when that norm is positive, which makes the stored vector a
unit vector; when the norm is zero the renormalization is skipped. -/
theorem c2_preference_update (uold vitem : List ℝ) (action : String) :
    firstUserVectorR vitem = vitem ∧
    updateUserVectorR uold vitem action =
      (if 0 < l2norm (combineR uold vitem action)
       then (combineR uold vitem action).map
         (fun x => x / l2norm (combineR uold vitem action))
       else combineR uold vitem action) ∧
    (0 < l2norm (combineR uold vitem action) →
      l2norm (updateUserVectorR uold vitem action) = 1) ∧
    (l2norm (combineR uold vitem action) = 0 →
      updateUserVectorR uold vitem action = combineR uold vitem action) := by
  refine ⟨rfl, rfl, ?_, ?_⟩
  · intro h
    have e : updateUserVectorR uold vitem action =
        (combineR uold vitem action).map
          (fun x => x / l2norm (combineR uold vitem action)) := by
      simp only [updateUserVectorR, if_pos h]
    rw [e]
    exact l2norm_normalize _ h
  · intro h
    simp only [updateUserVectorR, h, lt_irrefl, if_neg, not_false_iff, if_false]

/-- C2 witness: a concrete update with positive blend norm stores a unit
vector. -/
theorem c2_witness :
    0 < l2norm (combineR [1, 0] [1, 0] "VIEW") ∧
    l2norm (updateUserVectorR [1, 0] [1, 0] "VIEW") = 1 := by
  have h : 0 < l2norm (combineR [1, 0] [1, 0] "VIEW") := by
    rw [l2norm]
    apply Real.sqrt_pos.mpr
    simp only [combineR, weightsGetR, weights_get, decayR, user_vector_decay,
      view_weight, sumSqR, List.zipWith, List.map, List.sum_cons, List.sum_nil]
    norm_num
  exact ⟨h, (c2_preference_update [1, 0] [1, 0] "VIEW").2.2.1 h⟩

/-- C10: an interaction that carries only a variant id is accepted by the
request validation of the tracking endpoint, yet the service ignores the
variant id entirely, performs no write, and returns normally with the store
unchanged. -/
theorem c10_variant_only (C : Collab) (st : Store) (uid : Int) (v : Int)
    (action : String) (hv : v ≠ 0) :
    track_interaction C st uid none (some v) none action = Except.ok st ∧
    track_request_valid none (some v) none = true ∧
    (∀ v', track_interaction C st uid none (some v') none action =
      track_interaction C st uid none (some v) none action) := by
  refine ⟨rfl, ?_, fun v' => rfl⟩
  simp [track_request_valid, pyTruthyInt, pyTruthyStr, hv]

/-- C10 witness at variant id 5 on a concrete store. -/
theorem c10_witness :
    track_interaction collab0 storeNoItem 7 none (some 5) none "VIEW" =
      Except.ok storeNoItem ∧
    track_request_valid none (some 5) none = true :=
  ⟨(c10_variant_only collab0 storeNoItem 7 5 "VIEW" (by decide)).1,
   (c10_variant_only collab0 storeNoItem 7 5 "VIEW" (by decide)).2.1⟩

/-- C1 counterexample: with the vector index raising on searches, a tracking
event identified only by SKU makes `track_interaction` raise (the outer
except block logs and re-raises), refuting the claim that it always returns
normally when a collaborator raises during item resolution. -/
theorem c1_counterexample :
    track_interaction collab0 storeSkuFail 7 none none (some "SKU-1") "VIEW" =
      Except.error PyErr.serviceError := by rfl

/-- C1 (amended): when the item vector resolution completes without raising
but yields no vector, `track_interaction` returns normally and leaves the
store unchanged (no upsert); when the resolution raises (the SKU search
path re-raising a vector index exception), the exception propagates out of
`track_interaction` and no upsert is performed. -/
theorem c1_amended_tracking (C : Collab) (st : Store) (uid : Int)
    (pid vid : Option Int) (sku : Option String) (action : String) :
    (resolve_item_vector C st pid sku = Except.ok none →
      track_interaction C st uid pid vid sku action = Except.ok st) ∧
    (∀ e, resolve_item_vector C st pid sku = Except.error e →
      track_interaction C st uid pid vid sku action = Except.error e) := by
  constructor
  · intro h
    simp [track_interaction, h]
  · intro e h
    simp [track_interaction, h]

/-- C1 witness: an unresolvable item id is dropped without touching the
store; a raising SKU search propagates. -/
theorem c1_witness :
    track_interaction collab0 storeNoItem 7 (some 42) none none "ORDER" =
      Except.ok storeNoItem ∧
    track_interaction collab0 storeSkuFail 9 none none (some "SKU-2") "VIEW" =
      Except.error PyErr.serviceError :=
  ⟨(c1_amended_tracking collab0 storeNoItem 7 (some 42) none none "ORDER").1
     (by rfl),
   (c1_amended_tracking collab0 storeSkuFail 9 none none (some "SKU-2") "VIEW").2
     PyErr.serviceError (by rfl)⟩

/-- C5: similar-item lookup never returns the query item itself, returns at
most `limit` results, and returns an empty list without raising when no
vector is stored for the item. -/
theorem c5_similar_products (C : Collab) (st : Store) (pid : Int) (limit : Nat) :
    (qdrant_get_product_vector st pid = none →
      get_similar_products C st pid limit = Except.ok []) ∧
    (∀ out, get_similar_products C st pid limit = Except.ok out →
      out.length ≤ limit ∧ ∀ r ∈ out, r.product_id ≠ pid) := by
  constructor
  · intro h
    simp [get_similar_products, h]
  · intro out h
    unfold get_similar_products at h
    cases hv : qdrant_get_product_vector st pid with
    | none =>
      rw [hv] at h
      cases h
      exact ⟨Nat.zero_le _, by intro r hr; cases hr⟩
    | some pv =>
      rw [hv] at h
      dsimp only at h
      cases hs : qdrant_search_products C st pv (limit + 1) none with
      | error e => rw [hs] at h; cases h
      | ok rs =>
        rw [hs] at h
        cases h
        constructor
        · simp [Nat.min_le_left]
        · intro r hr
          have hr2 := List.take_subset _ _ hr
          obtain ⟨x, hx, hxr⟩ := List.mem_map.mp hr2
          have hxf := (List.mem_filter.mp hx).2
          have hne : x.product_id ≠ pid := by
            simpa [bne_iff_ne] using hxf
          rw [← hxr]
          exact hne

/-- C5 witness: on a two-product store, looking up neighbors of product 1
drops product 1 itself; an unknown product id yields an empty result. -/
theorem c5_witness :
    get_similar_products collab0 storeTwo 99 10 = Except.ok [] ∧
    (([({ product_id := 2, sku := "B", name := "b", score := 0 } : Rec)]).length ≤ 10 ∧
     ∀ r ∈ [({ product_id := 2, sku := "B", name := "b", score := 0 } : Rec)],
       r.product_id ≠ 1) :=
  ⟨(c5_similar_products collab0 storeTwo 99 10).1 (by rfl),
   (c5_similar_products collab0 storeTwo 1 10).2
     [{ product_id := 2, sku := "B", name := "b", score := 0 }] (by rfl)⟩

/-! ## Helper lemmas for the ranking claims -/

/-- A store is well formed when its product point ids are pairwise distinct
(Qdrant keys points by id, so one id holds one point). -/
abbrev WFProducts (st : Store) : Prop :=
  (st.products.map (fun p => p.product_id)).Nodup

theorem productSearchImpl_ids_nodup (C : Collab) (st : Store) (q : Vec)
    (limit : Nat) (f : Option Dict) (h : WFProducts st) :
    ((productSearchImpl C st q limit f).map (fun r => r.product_id)).Nodup := by
  unfold productSearchImpl
  rw [List.map_map]
  have hcomp : (fun r : ProductHit => r.product_id) ∘ toProductHit C q =
      fun p : ProductPoint => p.product_id := rfl
  rw [hcomp]
  set cand := (match f with
    | some f => st.products.filter (productMatches f)
    | none => st.products) with hcand
  have hc : (cand.map (fun p => p.product_id)).Nodup := by
    cases f with
    | none => exact h
    | some f =>
      exact List.Nodup.sublist
        (List.Sublist.map _ (List.filter_sublist st.products)) h
  have hperm : List.Perm
      ((cand.insertionSort
        (fun a b => C.score q b.vector ≤ C.score q a.vector)).map
          (fun p => p.product_id))
      (cand.map (fun p => p.product_id)) :=
    List.Perm.map _ (List.perm_insertionSort _ cand)
  have hr : ((cand.insertionSort
      (fun a b => C.score q b.vector ≤ C.score q a.vector)).map
        (fun p => p.product_id)).Nodup := hperm.nodup_iff.mpr hc
  exact List.Nodup.sublist (List.Sublist.map _ (List.take_sublist _ _)) hr

theorem qdrant_search_ids_nodup (C : Collab) (st : Store) (q : Vec)
    (limit : Nat) (f : Option Dict) (rs : List ProductHit) (h : WFProducts st)
    (hok : qdrant_search_products C st q limit f = Except.ok rs) :
    (rs.map (fun r => r.product_id)).Nodup := by
  unfold qdrant_search_products at hok
  by_cases hf : st.searchProductsFails
  · rw [if_pos hf] at hok; cases hok
  · rw [if_neg hf] at hok
    cases hok
    exact productSearchImpl_ids_nodup C st q limit f h

theorem default_recommendations_ids_nodup (C : Collab) (st : Store)
    (limit : Nat) (h : WFProducts st) :
    ((default_recommendations C st limit).map (fun r => r.product_id)).Nodup := by
  unfold default_recommendations
  cases hs : qdrant_search_products C st (List.replicate embedding_dimension 0)
      limit none with
  | error e => simp
  | ok rs =>
    dsimp only
    rw [List.map_map]
    have hcomp : (fun r : Rec => r.product_id) ∘
        (fun r => { hitToRec r with score := 0.5 }) =
        fun r : ProductHit => r.product_id := rfl
    rw [hcomp]
    exact qdrant_search_ids_nodup C st _ limit none rs h hs

theorem user_recommendations_ids_nodup (C : Collab) (st : Store) (uid : Int)
    (limit : Nat) (ur : List Rec) (h : WFProducts st)
    (hok : get_user_recommendations C st uid limit = Except.ok ur) :
    (ur.map (fun r => r.product_id)).Nodup := by
  unfold get_user_recommendations at hok
  cases hv : qdrant_get_user_vector st uid with
  | none =>
    rw [hv] at hok
    cases hok
    exact default_recommendations_ids_nodup C st limit h
  | some uv =>
    rw [hv] at hok
    dsimp only at hok
    cases hs : qdrant_search_products C st uv limit none with
    | error e => rw [hs] at hok; cases hok
    | ok rs =>
      rw [hs] at hok
      cases hok
      rw [List.map_map]
      have hcomp : (fun r : Rec => r.product_id) ∘ hitToRec =
          fun r : ProductHit => r.product_id := rfl
      rw [hcomp]
      exact qdrant_search_ids_nodup C st uv limit none rs h hs

/-- Specification of the dedup merge loop: it appends to the accumulator a
pad whose ids avoid the seen set and are pairwise distinct. -/
theorem mergeDedup_spec (ds : List Rec) : ∀ acc seen,
    ∃ pad, mergeDedup acc seen ds = acc ++ pad ∧
      (∀ r ∈ pad, r.product_id ∉ seen) ∧
      (pad.map (fun r => r.product_id)).Nodup := by
  induction ds with
  | nil =>
    intro acc seen
    exact ⟨[], by simp [mergeDedup], by simp, by simp⟩
  | cons r rs ih =>
    intro acc seen
    by_cases hmem : r.product_id ∈ seen
    · obtain ⟨pad, he, hnot, hnd⟩ := ih acc seen
      refine ⟨pad, ?_, hnot, hnd⟩
      rw [mergeDedup, if_pos hmem]
      exact he
    · obtain ⟨pad, he, hnot, hnd⟩ := ih (acc ++ [r]) (r.product_id :: seen)
      refine ⟨r :: pad, ?_, ?_, ?_⟩
      · rw [mergeDedup, if_neg hmem, he, List.append_assoc]
        rfl
      · intro x hx
        rcases List.mem_cons.mp hx with hx | hx
        · rw [hx]; exact hmem
        · intro hc
          exact hnot x hx (List.mem_cons_of_mem _ hc)
      · rw [List.map_cons, List.nodup_cons]
        refine ⟨?_, hnd⟩
        intro hc
        obtain ⟨x, hx, hxid⟩ := List.mem_map.mp hc
        exact hnot x hx (by rw [hxid]; exact List.mem_cons_self _ _)

/-- C6: homepage recommendations are the user-based recommendations first, in
order, padded with default recommendations whose ids are not already
present; the result has pairwise distinct product ids and length at most
`limit` (given a store with distinct product ids). -/
theorem c6_homepage (C : Collab) (st : Store) (uid : Int) (limit : Nat)
    (out : List Rec) (hwf : WFProducts st)
    (hok : get_homepage_recommendations C st uid limit = Except.ok out) :
    ∃ ur pad,
      get_user_recommendations C st uid limit = Except.ok ur ∧
      out = ur.take limit ++ pad ∧
      (∀ r ∈ pad, r.product_id ∉ ur.map (fun x => x.product_id)) ∧
      (out.map (fun r => r.product_id)).Nodup ∧
      out.length ≤ limit := by
  unfold get_homepage_recommendations at hok
  cases hur : get_user_recommendations C st uid limit with
  | error e => rw [hur] at hok; cases hok
  | ok ur =>
    rw [hur] at hok
    dsimp only at hok
    have hund : (ur.map (fun r => r.product_id)).Nodup :=
      user_recommendations_ids_nodup C st uid limit ur hwf hur
    by_cases hlen : limit ≤ ur.length
    · rw [if_pos hlen] at hok
      cases hok
      refine ⟨ur, [], rfl, by simp, by simp, ?_, ?_⟩
      · rw [List.map_take]
        exact List.Nodup.sublist (List.take_sublist _ _) hund
      · simp [Nat.min_le_left]
    · rw [if_neg hlen] at hok
      cases hok
      push_neg at hlen
      obtain ⟨pad, he, hnot, hnd⟩ :=
        mergeDedup_spec (default_recommendations C st (limit - ur.length)) ur
          (ur.map (fun r => r.product_id))
      rw [he]
      have hple : ur.length ≤ limit := le_of_lt hlen
      have htake : (ur ++ pad).take limit =
          ur ++ pad.take (limit - ur.length) := by
        rw [List.take_append_eq_append_take, List.take_of_length_le hple]
      refine ⟨ur, pad.take (limit - ur.length), rfl, ?_, ?_, ?_, ?_⟩
      · rw [htake, List.take_of_length_le hple]
      · intro r hr
        exact hnot r (List.take_subset _ _ hr)
      · rw [htake, List.map_append, List.nodup_append]
        refine ⟨hund, ?_, ?_⟩
        · rw [List.map_take]
          exact List.Nodup.sublist (List.take_sublist _ _) hnd
        · intro a ha hb
          obtain ⟨x, hx, hxa⟩ := List.mem_map.mp hb
          exact hnot x (List.take_subset _ _ hx) (by rw [hxa]; exact ha)
      · rw [htake, List.length_append, List.length_take]
        omega

/-- C6 witness: on a two-product store with a cold-start user and limit 3,
the user-based defaults come first and the pad deduplicates to nothing. -/
theorem c6_witness :
    ∃ ur pad,
      get_user_recommendations collab0 storeTwo 9 3 = Except.ok ur ∧
      ([({ product_id := 1, sku := "A", name := "a", score := 0.5 } : Rec),
        { product_id := 2, sku := "B", name := "b", score := 0.5 }] : List Rec) =
        ur.take 3 ++ pad ∧
      (∀ r ∈ pad, r.product_id ∉ ur.map (fun x => x.product_id)) ∧
      (([({ product_id := 1, sku := "A", name := "a", score := 0.5 } : Rec),
         { product_id := 2, sku := "B", name := "b", score := 0.5 }] : List Rec).map
          (fun r => r.product_id)).Nodup ∧
      ([({ product_id := 1, sku := "A", name := "a", score := 0.5 } : Rec),
        { product_id := 2, sku := "B", name := "b", score := 0.5 }] : List Rec).length ≤ 3 :=
  c6_homepage collab0 storeTwo 9 3
    [{ product_id := 1, sku := "A", name := "a", score := 0.5 },
     { product_id := 2, sku := "B", name := "b", score := 0.5 }]
    (by decide) (by rfl)

/-! ## Helper lemmas for the retrieval claims -/

/-- The knowledge search helper always returns the empty list: its call to
`search_knowledge_base` passes a keyword argument `filters` that the callee
does not declare, so the call raises `TypeError`, which the surrounding
except block turns into `[]`. -/
theorem chat_search_knowledge_eq_nil (C : Collab) (st : Store) (qe : Vec)
    (f : Option Dict) : chat_search_knowledge C st qe f = [] := by
  unfold chat_search_knowledge chat_search_knowledge_call
  simp [search_knowledge_base_parameters]

/-- The product search helper degrades an index failure to `[]` and otherwise
returns the raw search result. -/
theorem chat_search_products_eq (C : Collab) (st : Store) (qe : Vec)
    (f : Option Dict) :
    chat_search_products C st qe f =
      if st.searchProductsFails then []
      else productSearchImpl C st qe 5 (chatProductFilters f) := by
  unfold chat_search_products qdrant_search_products
  by_cases h : st.searchProductsFails <;> simp [h]

/-- The context returned on a non-empty query: one entry per intent label,
with every knowledge source degraded to empty by the TypeError. -/
theorem retrieve_context_ok (C : Collab) (st : Store) (query : String)
    (intent : QueryIntent) (hq : ¬ pyStrip query = "") :
    (retrieve_context C st query intent).1 = Except.ok
      { products := if "product_search" ∈ intent.intents then
          some (chat_search_products C st (C.embedF (pyStrip query)) intent.product_filters)
          else none,
        tax_docs := if "tax_question" ∈ intent.intents then some [] else none,
        contract_docs := if "contract_help" ∈ intent.intents then some [] else none,
        suppliers := if "supplier_info" ∈ intent.intents then
          some (chat_search_products C st (C.embedF (pyStrip query)) intent.product_filters)
          else none,
        guides := if "platform_help" ∈ intent.intents then some [] else none } := by
  unfold retrieve_context embed_text
  rw [if_neg hq]
  dsimp only
  by_cases ht : "tax_question" ∈ intent.intents <;>
  by_cases hc : "contract_help" ∈ intent.intents <;>
  simp [ht, hc, chat_search_knowledge_eq_nil]

/-- The state of the knowledge filters object of the intent after
`retrieve_context` has built its tasks: the tax branch and then the contract
branch each overwrite the doc_type key in place when the dict is non-empty. -/
def knowledgeFiltersAfter (intent : QueryIntent) : Option Dict :=
  let s1 := if "tax_question" ∈ intent.intents then
      (buildKnowledgeTask intent.knowledge_filters "tax").2
    else intent.knowledge_filters
  let s2 := if "contract_help" ∈ intent.intents then
      (buildKnowledgeTask s1 "contract").2
    else s1
  s2

/-- The intent object after `retrieve_context`: unchanged when the embedding
raises (empty query), otherwise the knowledge filters reflect the in-place
doc_type writes. -/
theorem retrieve_context_intent (C : Collab) (st : Store) (query : String)
    (intent : QueryIntent) :
    (retrieve_context C st query intent).2 =
      if pyStrip query = "" then intent
      else { intent with knowledge_filters := knowledgeFiltersAfter intent } := by
  unfold retrieve_context embed_text knowledgeFiltersAfter
  by_cases hq : pyStrip query = ""
  · simp [hq]
  · rw [if_neg hq, if_neg hq]
    dsimp only
    by_cases ht : "tax_question" ∈ intent.intents <;>
    by_cases hc : "contract_help" ∈ intent.intents <;>
    simp [ht, hc]

/-- C4: on a non-empty query the returned context holds exactly one entry per
built task; an entry of a failed source is the empty list and an entry of a
succeeding source is its retrieved result, each source depending only on its
own outcome (the knowledge sources always degrade to empty through the
swallowed TypeError, the product sources degrade exactly when the product
search raises). -/
theorem c4_per_source_isolation (C : Collab) (st : Store) (query : String)
    (intent : QueryIntent) (ctx : RContext)
    (hok : (retrieve_context C st query intent).1 = Except.ok ctx) :
    (ctx.products.isSome ↔ "product_search" ∈ intent.intents) ∧
    (ctx.tax_docs.isSome ↔ "tax_question" ∈ intent.intents) ∧
    (ctx.contract_docs.isSome ↔ "contract_help" ∈ intent.intents) ∧
    (ctx.suppliers.isSome ↔ "supplier_info" ∈ intent.intents) ∧
    (ctx.guides.isSome ↔ "platform_help" ∈ intent.intents) ∧
    ("product_search" ∈ intent.intents →
      ctx.products = some (if st.searchProductsFails then []
        else productSearchImpl C st (C.embedF (pyStrip query)) 5
          (chatProductFilters intent.product_filters))) ∧
    ("supplier_info" ∈ intent.intents →
      ctx.suppliers = some (if st.searchProductsFails then []
        else productSearchImpl C st (C.embedF (pyStrip query)) 5
          (chatProductFilters intent.product_filters))) ∧
    ("tax_question" ∈ intent.intents → ctx.tax_docs = some []) ∧
    ("contract_help" ∈ intent.intents → ctx.contract_docs = some []) ∧
    ("platform_help" ∈ intent.intents → ctx.guides = some []) := by
  by_cases hq : pyStrip query = ""
  · unfold retrieve_context embed_text at hok
    rw [if_pos hq] at hok
    cases hok
  · rw [retrieve_context_ok C st query intent hq] at hok
    injection hok with hok
    subst hok
    refine ⟨?_, ?_, ?_, ?_, ?_, ?_, ?_, ?_, ?_, ?_⟩ <;>
      by_cases h : "product_search" ∈ intent.intents <;>
      simp [h, chat_search_products_eq]

/-- C3: whenever `tax_question` is among the intents, the tax_docs entry of a
successfully returned context is the empty list, whatever the store holds:
the knowledge retrieval raises `TypeError` (the call site passes a `filters`
keyword argument that `search_knowledge_base` does not declare) and the
except block degrades it to empty, so the claimed doc_type=tax retrieval
never happens. -/
theorem c3_tax_docs_always_empty (C : Collab) (st : Store) (query : String)
    (intent : QueryIntent) (ctx : RContext)
    (hok : (retrieve_context C st query intent).1 = Except.ok ctx)
    (hmem : "tax_question" ∈ intent.intents) :
    ctx.tax_docs = some [] := by
  by_cases hq : pyStrip query = ""
  · unfold retrieve_context embed_text at hok
    rw [if_pos hq] at hok
    cases hok
  · rw [retrieve_context_ok C st query intent hq] at hok
    injection hok with hok
    subst hok
    simp [hmem]

def docTaxVN : KnowledgePoint :=
  { id := "d1", vector := [1], doc_type := "tax", title := "VN import tax",
    region := "VN", source := "tax.pdf", text := "VAT is 10 percent" }

/-- A healthy store holding one product and one Vietnamese tax document. -/
def storeTax : Store :=
  { products := [prodA], knowledge := [docTaxVN], users := [] }

def intentVN : QueryIntent :=
  { intents := ["tax_question"],
    knowledge_filters := some [("region", Val.str "VN")], confidence := 0.6 }

/-- C3 witness: on a store holding a matching tax document, a tax_question
query still gets an empty tax_docs entry. -/
theorem c3_witness :
    ({ tax_docs := some [] } : RContext).tax_docs = some [] :=
  c3_tax_docs_always_empty collab0 storeTax "vietnam import tax" intentVN
    { tax_docs := some [] } (by rfl) (by decide)

def intentPT : QueryIntent :=
  { intents := ["product_search", "tax_question"], confidence := 0.6 }

def ctxPT : RContext :=
  { products := some [toProductHit collab0 [] prodA], tax_docs := some [] }

/-- C4 witness: a product_search plus tax_question query on a healthy store
returns a non-empty products entry and an empty tax_docs entry, and builds no
other entry. -/
theorem c4_witness :
    (ctxPT.products.isSome ↔ "product_search" ∈ intentPT.intents) ∧
    (ctxPT.tax_docs.isSome ↔ "tax_question" ∈ intentPT.intents) ∧
    (ctxPT.contract_docs.isSome ↔ "contract_help" ∈ intentPT.intents) ∧
    (ctxPT.suppliers.isSome ↔ "supplier_info" ∈ intentPT.intents) ∧
    (ctxPT.guides.isSome ↔ "platform_help" ∈ intentPT.intents) ∧
    ("product_search" ∈ intentPT.intents →
      ctxPT.products = some (if storeTax.searchProductsFails then []
        else productSearchImpl collab0 storeTax (collab0.embedF (pyStrip "find tax")) 5
          (chatProductFilters intentPT.product_filters))) ∧
    ("supplier_info" ∈ intentPT.intents →
      ctxPT.suppliers = some (if storeTax.searchProductsFails then []
        else productSearchImpl collab0 storeTax (collab0.embedF (pyStrip "find tax")) 5
          (chatProductFilters intentPT.product_filters))) ∧
    ("tax_question" ∈ intentPT.intents → ctxPT.tax_docs = some []) ∧
    ("contract_help" ∈ intentPT.intents → ctxPT.contract_docs = some []) ∧
    ("platform_help" ∈ intentPT.intents → ctxPT.guides = some []) :=
  c4_per_source_isolation collab0 storeTax "find tax" intentPT ctxPT (by rfl)

/-- C9 counterexample: a tax_question intent whose knowledge filters dict is
the non-empty mapping region=VN comes back from `retrieve_context` with a
doc_type=tax entry added in place, so the QueryIntent is not the same after
the call. -/
theorem c9_counterexample :
    (retrieve_context collab0 storeTax "vietnam import tax" intentVN).2 ≠
        intentVN ∧
      (retrieve_context collab0 storeTax "vietnam import tax" intentVN).2.knowledge_filters =
        some [("region", Val.str "VN"), ("doc_type", Val.str "tax")] := by
  constructor
  · decide
  · rfl

/-- C9 (amended): `retrieve_context` performs no store write and leaves the
intents, product filters, realtime flag and confidence of the intent
unchanged; the knowledge filters mapping is also unchanged when it is absent
or empty, when the query is blank, or when neither tax_question nor
contract_help is requested — but when it is a non-empty mapping and one of
those intents is present, the call writes the corresponding doc_type key
into it in place. -/
theorem c9_amended_frame (C : Collab) (st : Store) (query : String)
    (intent : QueryIntent) :
    ((retrieve_context C st query intent).2.intents = intent.intents ∧
     (retrieve_context C st query intent).2.product_filters =
       intent.product_filters ∧
     (retrieve_context C st query intent).2.requires_realtime_data =
       intent.requires_realtime_data ∧
     (retrieve_context C st query intent).2.confidence = intent.confidence) ∧
    (pyStrip query = "" → (retrieve_context C st query intent).2 = intent) ∧
    (intent.knowledge_filters = none →
      (retrieve_context C st query intent).2 = intent) ∧
    (intent.knowledge_filters = some [] →
      (retrieve_context C st query intent).2 = intent) ∧
    ("tax_question" ∉ intent.intents → "contract_help" ∉ intent.intents →
      (retrieve_context C st query intent).2 = intent) ∧
    (retrieve_context C st query intent).2.knowledge_filters =
      (if pyStrip query = "" then intent.knowledge_filters
       else knowledgeFiltersAfter intent) := by
  rw [retrieve_context_intent C st query intent]
  by_cases hq : pyStrip query = ""
  · simp [hq]
  · rw [if_neg hq, if_neg hq]
    refine ⟨⟨rfl, rfl, rfl, rfl⟩, fun h => absurd h hq, ?_, ?_, ?_, rfl⟩
    · intro h
      have : knowledgeFiltersAfter intent = intent.knowledge_filters := by
        simp [knowledgeFiltersAfter, h, buildKnowledgeTask]
      rw [this]
    · intro h
      have : knowledgeFiltersAfter intent = intent.knowledge_filters := by
        simp [knowledgeFiltersAfter, h, buildKnowledgeTask]
      rw [this]
    · intro h1 h2
      have : knowledgeFiltersAfter intent = intent.knowledge_filters := by
        simp [knowledgeFiltersAfter, h1, h2]
      rw [this]

/-! ## Helper lemmas for the response generator claim -/

theorem sectionList_eq_nil {α : Type} (entry : Option (List α))
    (render : List α → String) (h : truthyEntry entry = false) :
    sectionList entry render = [] := by
  match entry with
  | none => rfl
  | some [] => rfl
  | some (p :: ps) => simp [truthyEntry] at h

theorem mem_sectionList {α : Type} {entry : Option (List α)}
    {render : List α → String} {s : String} (h : s ∈ sectionList entry render) :
    ∃ l, s = render l := by
  match entry with
  | none => cases h
  | some [] => cases h
  | some (p :: ps) =>
    exact ⟨p :: ps, List.mem_singleton.mp h⟩

/-- When no built source is non-empty, the composer renders no section. -/
theorem fallbackSections_eq_nil (ctx : RContext)
    (h : anyContextValues ctx = false) : fallbackSections ctx = [] := by
  unfold anyContextValues at h
  simp only [Bool.or_eq_false_iff] at h
  obtain ⟨⟨⟨⟨h1, h2⟩, h3⟩, h4⟩, h5⟩ := h
  unfold fallbackSections
  rw [sectionList_eq_nil _ _ h1, sectionList_eq_nil _ _ h2,
    sectionList_eq_nil _ _ h3, sectionList_eq_nil _ _ h5]
  rfl

theorem productsSection_length_pos (l : List ProductHit) :
    0 < (productsSection l).length := by
  unfold productsSection
  rw [String.length_append]
  have h : 0 < ("**Products Found:**\n").length := by decide
  omega

theorem docsSection_length_pos (header : String) (l : List KnowledgeHit)
    (hh : 0 < header.length) : 0 < (docsSection header l).length := by
  unfold docsSection
  rw [String.length_append]
  omega

/-- Every rendered section carries a header, hence has positive length. -/
theorem fallbackSections_length_pos (ctx : RContext) :
    ∀ s ∈ fallbackSections ctx, 0 < s.length := by
  intro s hs
  unfold fallbackSections at hs
  rcases List.mem_append.mp hs with hs | hs
  · rcases List.mem_append.mp hs with hs | hs
    · rcases List.mem_append.mp hs with hs | hs
      · obtain ⟨l, rfl⟩ := mem_sectionList hs
        exact productsSection_length_pos l
      · obtain ⟨l, rfl⟩ := mem_sectionList hs
        exact docsSection_length_pos _ l (by decide)
    · obtain ⟨l, rfl⟩ := mem_sectionList hs
      exact docsSection_length_pos _ l (by decide)
  · obtain ⟨l, rfl⟩ := mem_sectionList hs
    exact docsSection_length_pos _ l (by decide)

theorem intercalate_go_length (s : String) (l : List String) :
    ∀ acc : String, acc.length ≤ (String.intercalate.go acc s l).length := by
  induction l with
  | nil =>
    intro acc
    simp [String.intercalate.go]
  | cons a as ih =>
    intro acc
    rw [String.intercalate.go]
    calc acc.length ≤ (acc ++ s ++ a).length := by
          rw [String.length_append, String.length_append]; omega
      _ ≤ _ := ih _

/-- Joining a non-empty list of non-empty sections yields a non-empty answer. -/
theorem intercalate_sections_ne_empty (parts : List String)
    (hne : parts ≠ []) (hpos : ∀ s ∈ parts, 0 < s.length) :
    String.intercalate "\n\n" parts ≠ "" := by
  match parts with
  | [] => exact absurd rfl hne
  | a :: as =>
    intro hc
    have h1 : a.length ≤ (String.intercalate "\n\n" (a :: as)).length := by
      rw [String.intercalate]
      exact intercalate_go_length _ _ a
    rw [hc] at h1
    have h2 := hpos a (List.mem_cons_self _ _)
    have h3 : ("" : String).length = 0 := by decide
    omega

def hitSupOnly : ProductHit := toProductHit collab0 [] prodA

/-- A retrieval context whose only entry is a non-empty suppliers list (as a
supplier_info-only query produces). -/
def ctxSupOnly : RContext := { suppliers := some [hitSupOnly] }

def intentSup : QueryIntent := { intents := ["supplier_info"], confidence := 0.6 }

/-- C8 counterexample: with only the suppliers source non-empty, the fallback
composer returns the fixed apology string — not the concatenation of
non-empty context sections (there is no rendered supplier section) and not
the no-information message, refuting the claimed two-case shape. -/
theorem c8_counterexample :
    generate_llm_response none "who sells a" ctxSupOnly intentSup =
      could_not_format_message ∧
    could_not_format_message ≠
      String.intercalate "\n\n" (fallbackSections ctxSupOnly) ∧
    fallbackSections ctxSupOnly = [] ∧
    anyContextValues ctxSupOnly = true ∧
    could_not_format_message ≠ no_info_message := by
  exact ⟨rfl, by decide, rfl, rfl, by decide⟩

/-- C8 (amended): with no generation backend (or a raising one) the response
is the deterministic fallback composition; that composition is the
no-information message when every built source is empty, the concatenation
of the rendered non-empty sections (products, tax, contract and guide
sources — suppliers are never rendered) when at least one exists, and a
fixed apology when only unrendered sources are non-empty; in all cases the
answer is a non-empty string. -/
theorem c8_amended_generator (query : String) (ctx : RContext)
    (intent : QueryIntent) :
    generate_llm_response none query ctx intent =
      generate_fallback_response query ctx intent ∧
    (∀ e, generate_llm_response (some (Except.error e)) query ctx intent =
      generate_fallback_response query ctx intent) ∧
    (anyContextValues ctx = false →
      generate_fallback_response query ctx intent = no_info_message) ∧
    (fallbackSections ctx ≠ [] →
      generate_fallback_response query ctx intent =
        String.intercalate "\n\n" (fallbackSections ctx)) ∧
    (anyContextValues ctx = true → fallbackSections ctx = [] →
      generate_fallback_response query ctx intent = could_not_format_message) ∧
    generate_fallback_response query ctx intent ≠ "" := by
  refine ⟨rfl, fun e => rfl, ?_, ?_, ?_, ?_⟩
  · intro h
    unfold generate_fallback_response
    rw [if_pos h]
  · intro h
    have hany : anyContextValues ctx = true := by
      by_contra hc
      exact h (fallbackSections_eq_nil ctx (Bool.eq_false_iff.mpr hc))
    unfold generate_fallback_response
    rw [hany]
    simp only [Bool.true_eq_false, if_false]
    rw [if_neg h]
  · intro hany hsec
    unfold generate_fallback_response
    rw [hany]
    simp only [Bool.true_eq_false, if_false]
    rw [if_pos hsec]
  · by_cases hany : anyContextValues ctx
    · cases hsec : fallbackSections ctx with
      | nil =>
        unfold generate_fallback_response
        rw [hany]
        simp only [Bool.true_eq_false, if_false]
        rw [if_pos hsec]
        decide
      | cons a as =>
        unfold generate_fallback_response
        rw [hany]
        simp only [Bool.true_eq_false, if_false]
        rw [if_neg (by rw [hsec]; exact List.cons_ne_nil a as)]
        rw [hsec]
        exact intercalate_sections_ne_empty (a :: as) (List.cons_ne_nil a as)
          (by rw [← hsec]; exact fallbackSections_length_pos ctx)
    · unfold generate_fallback_response
      rw [if_pos (Bool.eq_false_iff.mpr hany)]
      decide

end Vendora
